import Mathlib

/-!
# ACE Elite Leaderboard — stats-collection pipeline, shallow embedding

This file embeds the stats-collection pipeline of the repository:

* `src/models.py` — the `StatsSnapshot` row, the platform-handle fields of
  `Student`, and the read paths `get_latest_stats` / `get_stats_history`;
* `src/scheduler.py` — the per-platform retry loops
  (`_fetch_codeforces_stats`, `_fetch_leetcode_stats`, `_fetch_codechef_stats`),
  the per-student orchestrator `_fetch_student_all_platforms`, the batch loop
  of `fetch_all_stats`, `_save_failed_snapshot`, and the on-demand
  `fetch_student_stats`;
* `src/services/{codeforces,leetcode,codechef}.py` — the three platform
  adapters, modelled over a JSON value type with explicit Python exception
  propagation, so that the `try/except` structure of each adapter is visible.

Modelling conventions: the database session is an append-only list of
snapshot rows threaded through every operation in a `TraceState`; `time.sleep`
calls are recorded in the trace (retry delays and inter-batch delays in
separate lists so each sleep site is observable); `datetime.utcnow` is a
monotone counter stamped on each created row.  Thread-pool execution inside a
batch is modelled as sequential processing of the batch's students (batches
themselves are strictly sequential in the source; no claim below depends on
the interleaving inside a batch).  Database write failures are not modelled:
`db.session.add`/`commit` always succeed.
-/

namespace ACE

/-- Row model of `StatsSnapshot` (src/models.py lines 90-118).  Field defaults
mirror the column defaults: `solved` defaults to 0, `fetch_status` to
`"success"`, nullable columns to `none`. `timestamp` is an abstract tick of a
monotone clock standing for `datetime.utcnow`. -/
structure StatsSnapshot where
  student_id : Nat
  platform : String
  rating : Option Int := none
  max_rating : Option Int := none
  solved : Int := 0
  easy : Option Int := none
  medium : Option Int := none
  hard : Option Int := none
  timestamp : Nat := 0
  fetch_status : String := "success"
  error_message : Option String := none
deriving DecidableEq, Repr

/-- The fields of `Student` (src/models.py lines 29-61) that the collection
pipeline reads: the primary key and the three optional platform handles. -/
structure Student where
  id : Nat
  cf_handle : Option String := none
  lc_username : Option String := none
  cc_username : Option String := none
deriving DecidableEq, Repr

/-- Python truthiness of an optional string column: `if student.cf_handle:`
is false for `None` and for the empty string. -/
def pyTruthyStr : Option String → Bool
  | none => false
  | some s => s != ""

/-- Outcome of one adapter call as seen by the scheduler's `try` block:
a truthy dict (`ok`), a falsy/absent result (`nil`, Python `None`),
or a raised exception carrying its `str(e)` message (`exc`). -/
inductive AttemptOutcome (α : Type) where
  | ok (data : α)
  | nil
  | exc (msg : String)
deriving DecidableEq, Repr

/-- Observable trace of one scheduler run: the snapshot store (append-only,
in insertion order), the `time.sleep` delays executed inside retry loops and
between batches, the number of adapter calls made, and the clock used to
stamp new rows. -/
structure TraceState where
  store : List StatsSnapshot := []
  retrySleeps : List Nat := []
  batchSleeps : List Nat := []
  calls : Nat := 0
  clock : Nat := 0
deriving DecidableEq, Repr

/-- Model of `db.session.add(snapshot); db.session.commit()`: append one row stamped
with the current clock. -/
def TraceState.appendRow (st : TraceState) (mk : Nat → StatsSnapshot) : TraceState :=
  { st with store := st.store ++ [mk st.clock], clock := st.clock + 1 }

/-- Normalized Codeforces payload as consumed by the scheduler
(`data.get('rating', 0)` etc., src/scheduler.py lines 110-112). -/
structure CFData where
  rating : Int := 0
  max_rating : Int := 0
  solved : Int := 0
deriving DecidableEq, Repr

/-- Normalized LeetCode payload as consumed by the scheduler
(src/scheduler.py lines 145-148). -/
structure LCData where
  total_solved : Int := 0
  easy : Int := 0
  medium : Int := 0
  hard : Int := 0
deriving DecidableEq, Repr

/-- Normalized CodeChef payload as consumed by the scheduler
(src/scheduler.py lines 180-181). -/
structure CCData where
  rating : Int := 0
  solved : Int := 0
deriving DecidableEq, Repr

/-- Success snapshot built in `_fetch_codeforces_stats`
(src/scheduler.py lines 107-114). -/
def mkCFSuccess (sid : Nat) (d : CFData) (t : Nat) : StatsSnapshot :=
  { student_id := sid, platform := "CF", rating := some d.rating,
    max_rating := some d.max_rating, solved := d.solved,
    timestamp := t, fetch_status := "success" }

/-- Success snapshot built in `_fetch_leetcode_stats`
(src/scheduler.py lines 141-150): `rating=None`, difficulty tiers set. -/
def mkLCSuccess (sid : Nat) (d : LCData) (t : Nat) : StatsSnapshot :=
  { student_id := sid, platform := "LC", rating := none,
    solved := d.total_solved, easy := some d.easy, medium := some d.medium,
    hard := some d.hard, timestamp := t, fetch_status := "success" }

/-- Success snapshot built in `_fetch_codechef_stats`
(src/scheduler.py lines 177-183). -/
def mkCCSuccess (sid : Nat) (d : CCData) (t : Nat) : StatsSnapshot :=
  { student_id := sid, platform := "CC", rating := some d.rating,
    solved := d.solved, timestamp := t, fetch_status := "success" }

/-- Failed snapshot built in `_save_failed_snapshot`
(src/scheduler.py lines 202-216): `fetch_status='failed'`,
`error_message` retained, `solved=0`, all other payload columns absent. -/
def mkFailedSnapshot (sid : Nat) (platform errMsg : String) (t : Nat) : StatsSnapshot :=
  { student_id := sid, platform := platform, fetch_status := "failed",
    error_message := some errMsg, solved := 0, timestamp := t }

/-- Model of `max_retries = 3` in each of the three per-platform retry loops. -/
def maxRetries : Nat := 3

/-- The `time.sleep(2)` delay between retry attempts. -/
def retryDelay : Nat := 2

/-- Whether the scheduler's `try` block treats the attempt as a failure:
an exception, or a falsy (`None`) result. -/
def AttemptOutcome.isFail {α : Type} : AttemptOutcome α → Bool
  | .ok _ => false
  | .nil => true
  | .exc _ => true

/-- The error message `_save_failed_snapshot` receives for a failing
attempt: `'Failed to fetch data'` for a falsy result, `str(e)` for an
exception (unused for a success). -/
def AttemptOutcome.failMsg {α : Type} : AttemptOutcome α → String
  | .ok _ => ""
  | .nil => "Failed to fetch data"
  | .exc e => e

/-- The retry loop shared (verbatim, modulo the snapshot builders) by
`_fetch_codeforces_stats`, `_fetch_leetcode_stats` and
`_fetch_codechef_stats` (src/scheduler.py lines 99-200):

```
for attempt in range(max_retries):
    try:
        data = call()
        if data:
            <append success snapshot>; return
        else:
            if attempt < max_retries - 1: time.sleep(2); continue
            self._save_failed_snapshot(..., 'Failed to fetch data')
    except Exception as e:
        if attempt < max_retries - 1: time.sleep(2); continue
        self._save_failed_snapshot(..., str(e))
```

`call attempt` gives the outcome of the adapter call on the given attempt
index (the network may answer differently on each attempt); the loop runs
over the remaining attempt indices of `range(max_retries)`. -/
def retryLoopGo {α : Type} (call : Nat → AttemptOutcome α)
    (mkOk : α → Nat → StatsSnapshot) (mkFail : String → Nat → StatsSnapshot) :
    List Nat → TraceState → TraceState
  | [], st => st
  | attempt :: rest, st =>
    let st1 := { st with calls := st.calls + 1 }
    match call attempt with
    | .ok d => st1.appendRow (mkOk d)
    | .nil =>
      if attempt < maxRetries - 1 then
        retryLoopGo call mkOk mkFail rest
          { st1 with retrySleeps := st1.retrySleeps ++ [retryDelay] }
      else st1.appendRow (mkFail "Failed to fetch data")
    | .exc e =>
      if attempt < maxRetries - 1 then
        retryLoopGo call mkOk mkFail rest
          { st1 with retrySleeps := st1.retrySleeps ++ [retryDelay] }
      else st1.appendRow (mkFail e)

/-- The whole `for attempt in range(max_retries)` retry loop. -/
def retryLoop {α : Type} (call : Nat → AttemptOutcome α)
    (mkOk : α → Nat → StatsSnapshot) (mkFail : String → Nat → StatsSnapshot)
    (st : TraceState) : TraceState :=
  retryLoopGo call mkOk mkFail (List.range maxRetries) st

/-- Model of `_fetch_codeforces_stats` (src/scheduler.py lines 99-131). -/
def fetch_codeforces_stats (call : Nat → AttemptOutcome CFData) (sid : Nat)
    (st : TraceState) : TraceState :=
  retryLoop call (mkCFSuccess sid) (mkFailedSnapshot sid "CF") st

/-- Model of `_fetch_leetcode_stats` (src/scheduler.py lines 133-167). -/
def fetch_leetcode_stats (call : Nat → AttemptOutcome LCData) (sid : Nat)
    (st : TraceState) : TraceState :=
  retryLoop call (mkLCSuccess sid) (mkFailedSnapshot sid "LC") st

/-- Model of `_fetch_codechef_stats` (src/scheduler.py lines 169-200). -/
def fetch_codechef_stats (call : Nat → AttemptOutcome CCData) (sid : Nat)
    (st : TraceState) : TraceState :=
  retryLoop call (mkCCSuccess sid) (mkFailedSnapshot sid "CC") st

/-- The three adapter singletons as seen from the scheduler: for each
platform, the outcome of calling the adapter with a given handle on a given
attempt index. -/
structure Adapters where
  cf : String → Nat → AttemptOutcome CFData
  lc : String → Nat → AttemptOutcome LCData
  cc : String → Nat → AttemptOutcome CCData

/-- Model of `_fetch_student_all_platforms` (src/scheduler.py lines 85-97): each
platform is fetched iff its handle is truthy. -/
def fetch_student_all_platforms (api : Adapters) (s : Student)
    (st : TraceState) : TraceState :=
  let st1 := if pyTruthyStr s.cf_handle then
    fetch_codeforces_stats (api.cf (s.cf_handle.getD "")) s.id st else st
  let st2 := if pyTruthyStr s.lc_username then
    fetch_leetcode_stats (api.lc (s.lc_username.getD "")) s.id st1 else st1
  if pyTruthyStr s.cc_username then
    fetch_codechef_stats (api.cc (s.cc_username.getD "")) s.id st2 else st2

/-- Model of `batch_size = 10` (src/scheduler.py line 63). -/
def batchSize : Nat := 10

/-- The index sequence `range(0, n, batch_size)` of the batch loop, computed
with an explicit fuel (the roster length bounds the number of batches) so the
definition is structurally recursive. -/
def batchStartsAux : Nat → Nat → Nat → List Nat
  | 0, _, _ => []
  | fuel + 1, i, n => if i < n then i :: batchStartsAux fuel (i + batchSize) n else []

/-- Model of `range(0, len(students), batch_size)`. -/
def batchStarts (n : Nat) : List Nat := batchStartsAux n 0 n

/-- The batch slices `students[i:i+batch_size]` the loop processes, in
order. -/
def batchesOf (students : List Student) : List (List Student) :=
  (batchStarts students.length).map (fun i => (students.drop i).take batchSize)

/-- The body of `for i in range(0, len(students), batch_size)`
(src/scheduler.py lines 64-79): slice `students[i:i+batch_size]`, run the
per-student orchestrator for every student of the batch (the thread pool is
modelled as sequential processing of the batch), then
`if i + batch_size < len(students): time.sleep(2)`. -/
def batchLoopGo (api : Adapters) (students : List Student) :
    List Nat → TraceState → TraceState
  | [], st => st
  | i :: rest, st =>
    let batch := (students.drop i).take batchSize
    let st1 := batch.foldl (fun acc s => fetch_student_all_platforms api s acc) st
    let st2 := if i + batchSize < students.length then
      { st1 with batchSleeps := st1.batchSleeps ++ [2] } else st1
    batchLoopGo api students rest st2

/-- Model of `fetch_all_stats` (src/scheduler.py lines 43-83): load the roster,
return immediately when it is empty, otherwise process it in batches. -/
def fetch_all_stats (api : Adapters) (students : List Student)
    (st : TraceState) : TraceState :=
  if students.isEmpty then st
  else batchLoopGo api students (batchStarts students.length) st

/-- Model of `fetch_student_stats` (src/scheduler.py lines 218-232): the on-demand
single-student trigger.  `Student.query.get(student_id)` is lookup by
primary key in the roster. -/
def fetch_student_stats (api : Adapters) (roster : List Student)
    (studentId : Nat) (st : TraceState) : Bool × TraceState :=
  match roster.find? (fun s => s.id == studentId) with
  | none => (false, st)
  | some s =>
    let st1 := if pyTruthyStr s.cf_handle then
      fetch_codeforces_stats (api.cf (s.cf_handle.getD "")) s.id st else st
    let st2 := if pyTruthyStr s.lc_username then
      fetch_leetcode_stats (api.lc (s.lc_username.getD "")) s.id st1 else st1
    let st3 := if pyTruthyStr s.cc_username then
      fetch_codechef_stats (api.cc (s.cc_username.getD "")) s.id st2 else st2
    (true, st3)

/-- Model of `order_by(StatsSnapshot.timestamp.desc())`: later timestamps first. -/
def tsDesc (a b : StatsSnapshot) : Prop := b.timestamp ≤ a.timestamp

/-- Model of `order_by(StatsSnapshot.timestamp.asc())`: earlier timestamps first. -/
def tsAsc (a b : StatsSnapshot) : Prop := a.timestamp ≤ b.timestamp

instance : DecidableRel tsDesc := fun a b =>
  inferInstanceAs (Decidable (b.timestamp ≤ a.timestamp))

instance : DecidableRel tsAsc := fun a b =>
  inferInstanceAs (Decidable (a.timestamp ≤ b.timestamp))

instance : IsTotal StatsSnapshot tsDesc :=
  ⟨fun a b => Nat.le_total b.timestamp a.timestamp⟩

instance : IsTrans StatsSnapshot tsDesc :=
  ⟨fun _ _ _ h1 h2 => Nat.le_trans h2 h1⟩

instance : IsTotal StatsSnapshot tsAsc :=
  ⟨fun a b => Nat.le_total a.timestamp b.timestamp⟩

instance : IsTrans StatsSnapshot tsAsc :=
  ⟨fun _ _ _ h1 h2 => Nat.le_trans h1 h2⟩

/-- Model of `Student.get_latest_stats` (src/models.py lines 76-78):
`filter_by(platform=...).order_by(timestamp.desc()).first()`, over the
student's snapshot rows.  The SQL sort is modelled by `insertionSort`. -/
def get_latest_stats (snaps : List StatsSnapshot) (platform : String) :
    Option StatsSnapshot :=
  ((snaps.filter (fun s => s.platform == platform)).insertionSort tsDesc).head?

/-- Model of `Student.get_stats_history` (src/models.py lines 80-87):
`cutoff = utcnow() - timedelta(days=days)` followed by
`filter(platform == p, timestamp >= cutoff).order_by(timestamp.asc()).all()`.
Time is measured in days on the abstract clock, so `cutoff = now - days`
(truncated at 0, as timestamps are non-negative ticks). -/
def get_stats_history (snaps : List StatsSnapshot) (platform : String)
    (now days : Nat) : List StatsSnapshot :=
  (snaps.filter (fun s =>
    s.platform == platform && decide (now - days ≤ s.timestamp))).insertionSort tsAsc

/-!
## Platform adapters (src/services/)

The adapters are modelled over a JSON value type, with Python's exception
semantics made explicit in an `Except` monad: subscripting, `.get`, `in`,
and iteration each raise the exception the corresponding Python operation
raises on a value of the wrong shape.  The network is an input: each
`session.get`/`post` call is represented by a `NetResult` (either a response,
or a raised `requests.RequestException`); `response.json()` raises a
`ValueError` (requests' `JSONDecodeError` subclasses it) when the body is not
valid JSON.  URLs are not modelled — the identifier argument only selects the
URL, which is absorbed into the `NetResult` inputs. -/

/-- JSON values as produced by `response.json()`. -/
inductive Json where
  | null
  | bool (b : Bool)
  | num (n : Int)
  | str (s : String)
  | arr (elems : List Json)
  | obj (fields : List (String × Json))

/-- The Python exceptions relevant to the adapters' `try/except` clauses.
`reqExc` stands for `requests.RequestException` (and its subclasses,
including timeouts and requests' JSON decode error is modelled separately as
`valueError`, which it subclasses). -/
inductive PyExc where
  | keyError
  | valueError
  | indexError
  | typeError
  | attributeError
  | reqExc
deriving DecidableEq, Repr

/-- A Python computation: a value or a raised exception. -/
abbrev Py (α : Type) := Except PyExc α

/-- Subscripting with a string key, `d['k']`: dict lookup (`KeyError` when
missing); on a list, string or scalar Python raises `TypeError`. -/
def Json.getItem : Json → String → Py Json
  | .obj fields, k =>
    match fields.lookup k with
    | some v => .ok v
    | none => .error .keyError
  | _, _ => .error .typeError

/-- Subscripting with an integer, `d[0]`: list indexing (`IndexError` out of
range), one-character string on a string, `KeyError` on a dict without the
integer key, `TypeError` on scalars. -/
def Json.indexItem : Json → Nat → Py Json
  | .arr elems, i =>
    match elems.get? i with
    | some v => .ok v
    | none => .error .indexError
  | .str s, i =>
    match s.toList.get? i with
    | some c => .ok (.str (String.mk [c]))
    | none => .error .indexError
  | .obj _, _ => .error .keyError
  | _, _ => .error .typeError

/-- The dict method `d.get(k, default)`; raises `AttributeError` when the
receiver is not a dict. -/
def Json.dictGet : Json → String → Json → Py Json
  | .obj fields, k, dflt => .ok ((fields.lookup k).getD dflt)
  | _, _, _ => .error .attributeError

/-- Equality of a JSON value with a Python string literal (Python `==`
against a `str` is false on values of any other type). -/
def Json.eqStr : Json → String → Bool
  | .str t, s => t == s
  | _, _ => false

/-- Substring test, Python's `pat in s` on strings. -/
def strContains (s pat : String) : Bool :=
  (List.range (s.length + 1)).any
    (fun i => pat.toList.isPrefixOf (s.toList.drop i))

/-- Python's `k in d`: key test on a dict, membership on a list, substring
test on a string, `TypeError` on scalars. -/
def Json.hasMember : Json → String → Py Bool
  | .obj fields, k => .ok (fields.any (fun p => p.1 == k))
  | .arr elems, k => .ok (elems.any (fun e => e.eqStr k))
  | .str s, k => .ok (strContains s k)
  | _, _ => .error .typeError

/-- Python truthiness of a JSON value. -/
def Json.truthy : Json → Bool
  | .null => false
  | .bool b => b
  | .num n => n != 0
  | .str s => s != ""
  | .arr l => !l.isEmpty
  | .obj f => !f.isEmpty

/-- Iteration `for x in v`: list elements, characters of a string, keys of a
dict; `TypeError` on scalars. -/
def Json.toIter : Json → Py (List Json)
  | .arr l => .ok l
  | .str s => .ok (s.toList.map (fun c => .str (String.mk [c])))
  | .obj f => .ok (f.map (fun p => .str p.1))
  | _ => .error .typeError

/-- Model of `str()` / f-string conversion of a JSON value.  The repr of composite
values is abstracted (no adapter behaviour observed by the claims depends on
it: it only feeds the de-duplicating solved-problems set). -/
def Json.pyStr : Json → String
  | .null => "None"
  | .bool true => "True"
  | .bool false => "False"
  | .num n => toString n
  | .str s => s
  | .arr _ => "[...]"
  | .obj _ => "\x7b...\x7d"

/-- An HTTP response: status code plus JSON body (`none` when the body is
not valid JSON, so `.json()` raises). -/
structure HttpResponse where
  status_code : Nat
  body : Option Json := none

/-- One network call: a response, or a raised `requests.RequestException`. -/
inductive NetResult where
  | ok (resp : HttpResponse)
  | failed

/-- Performing the call: a failed transport raises. -/
def NetResult.toPy : NetResult → Py HttpResponse
  | .ok r => .ok r
  | .failed => .error .reqExc

/-- Model of `response.json()`. -/
def HttpResponse.json (r : HttpResponse) : Py Json :=
  match r.body with
  | some j => .ok j
  | none => .error .valueError

/-- Membership of the `except requests.RequestException` clause. -/
def isReqExc : PyExc → Bool
  | .reqExc => true
  | _ => false

/-- Membership of the `except (KeyError, ValueError, IndexError)` clause. -/
def isParseExc : PyExc → Bool
  | .keyError => true
  | .valueError => true
  | .indexError => true
  | _ => false

/-- An `except` clause: exceptions matched by `p` are converted to the
handler's return value (`dflt`, in the adapters always `None`); everything
else keeps propagating. -/
def catchWith {α : Type} (p : PyExc → Bool) (dflt : α) (m : Py α) : Py α :=
  match m with
  | .error e => if p e then .ok dflt else .error e
  | .ok v => .ok v

/-- The normalized Codeforces payload (src/services/codeforces.py lines
52-58); field values other than the solved count come via `.get` defaults
and so stay JSON-valued. -/
structure CFRawPayload where
  rating : Json
  max_rating : Json
  solved : Nat
  handle : Json
  rank : Json

/-- Model of `set.add` on the solved-problems set, modelled as a duplicate-free list. -/
def setAdd (s : List String) (x : String) : List String :=
  if x ∈ s then s else s ++ [x]

/-- The loop over `submissions_data['result']`
(src/services/codeforces.py lines 46-50). -/
def cfCollectSolved : List Json → List String → Py (List String)
  | [], acc => .ok acc
  | sub :: rest, acc => do
    let verdict ← sub.dictGet "verdict" .null
    if verdict.eqStr "OK" then
      let problem ← sub.getItem "problem"
      let cid ← problem.getItem "contestId"
      let idx ← problem.getItem "index"
      cfCollectSolved rest (setAdd acc (cid.pyStr ++ idx.pyStr))
    else
      cfCollectSolved rest acc

/-- The solved-count part of `get_user_info`
(src/services/codeforces.py lines 42-50), reading the `user.status`
response. -/
def cfSolvedSet (resp2 : HttpResponse) : Py (List String) :=
  if resp2.status_code == 200 then do
    let submissions_data ← resp2.json
    let st ← submissions_data.getItem "status"
    if st.eqStr "OK" then do
      let result ← submissions_data.getItem "result"
      let subs ← result.toIter
      cfCollectSolved subs []
    else .ok []
  else .ok []

/-- The `try` body of `CodeforcesAPI.get_user_info`
(src/services/codeforces.py lines 22-58).  `net1` is the `user.info` call,
`net2` the `user.status` call. -/
def cfBody (net1 net2 : NetResult) : Py (Option CFRawPayload) := do
  let response ← net1.toPy
  if response.status_code != 200 then
    return none
  let data ← response.json
  let status ← data.getItem "status"
  if !status.eqStr "OK" then
    return none
  let result ← data.getItem "result"
  let user ← result.indexItem 0
  let submissions_response ← net2.toPy
  let solved_problems ← cfSolvedSet submissions_response
  let rating ← user.dictGet "rating" (.num 0)
  let max_rating ← user.dictGet "maxRating" (.num 0)
  let handle ← user.dictGet "handle" .null
  let rank ← user.dictGet "rank" (.str "Unrated")
  return some { rating := rating, max_rating := max_rating,
                solved := solved_problems.length, handle := handle, rank := rank }

/-- Model of `CodeforcesAPI.get_user_info` (src/services/codeforces.py lines 17-65):
the body wrapped in `except requests.RequestException: return None` and
`except (KeyError, ValueError, IndexError): return None`. -/
def CodeforcesAPI.get_user_info (net1 net2 : NetResult) : Py (Option CFRawPayload) :=
  catchWith isParseExc none (catchWith isReqExc none (cfBody net1 net2))

/-- The normalized LeetCode payload (src/services/leetcode.py lines 82-89). -/
structure LCRawPayload where
  username : Json
  total_solved : Json
  easy : Json
  medium : Json
  hard : Json
  ranking : Json

/-- The loop over `acSubmissionNum` entries
(src/services/leetcode.py lines 69-80), threading
(easy, medium, hard, total). -/
def lcParseCounts : List Json → Json × Json × Json × Json → Py (Json × Json × Json × Json)
  | [], acc => .ok acc
  | stat :: rest, (e, m, h, t) => do
    let difficulty ← stat.getItem "difficulty"
    let count ← stat.getItem "count"
    if difficulty.eqStr "Easy" then lcParseCounts rest (count, m, h, t)
    else if difficulty.eqStr "Medium" then lcParseCounts rest (e, count, h, t)
    else if difficulty.eqStr "Hard" then lcParseCounts rest (e, m, count, t)
    else if difficulty.eqStr "All" then lcParseCounts rest (e, m, h, count)
    else lcParseCounts rest (e, m, h, t)

/-- The `try` body of `LeetCodeAPI.get_user_stats`
(src/services/leetcode.py lines 23-89). -/
def lcBody (net : NetResult) : Py (Option LCRawPayload) := do
  let response ← net.toPy
  if response.status_code != 200 then
    return none
  let data ← response.json
  let hasErrors ← data.hasMember "errors"
  if hasErrors then
    return none
  let dataField ← data.dictGet "data" (.obj [])
  let matchedPeek ← dataField.dictGet "matchedUser" .null
  if !matchedPeek.truthy then
    return none
  let dataItem ← data.getItem "data"
  let user_data ← dataItem.getItem "matchedUser"
  let submitStats ← user_data.getItem "submitStats"
  let acNums ← submitStats.getItem "acSubmissionNum"
  let subs ← acNums.toIter
  let counts ← lcParseCounts subs (.num 0, .num 0, .num 0, .num 0)
  let username ← user_data.getItem "username"
  let profile ← user_data.dictGet "profile" (.obj [])
  let ranking ← profile.dictGet "ranking" (.num 0)
  return some { username := username, total_solved := counts.2.2.2,
                easy := counts.1, medium := counts.2.1, hard := counts.2.2.1,
                ranking := ranking }

/-- Model of `LeetCodeAPI.get_user_stats` (src/services/leetcode.py lines 18-96):
same `except` clauses as the Codeforces adapter. -/
def LeetCodeAPI.get_user_stats (net : NetResult) : Py (Option LCRawPayload) :=
  catchWith isParseExc none (catchWith isReqExc none (lcBody net))

/-!
### CodeChef adapter (src/services/codechef.py)

The CodeChef adapter scrapes an HTML page.  The BeautifulSoup queries are
abstracted into a `Soup` record holding, for each `soup.find(...)` the code
performs, the text that query would return (absent when the element is
missing); the numeric extraction on those texts (`int(...)` and the two
`re.search` patterns) is modelled concretely. -/

/-- The results of the BeautifulSoup queries `get_user_stats` performs.
Nested options mirror nested element lookups: e.g. `problems_h5` is `none`
when no `section.problems-solved` exists, `some none` when the section has no
`h5`, `some (some text)` otherwise. -/
structure Soup where
  rating_number_text : Option String := none
  rating_label_text : Option String := none
  problems_h5 : Option (Option String) := none
  fully_solved_count : Option (Option String) := none
  scripts : List (Option String) := []
  user_details_present : Bool := false
deriving DecidableEq, Repr

/-- A CodeChef HTTP response: status code plus the parsed page. -/
structure CCResponse where
  status_code : Nat
  soup : Soup
deriving DecidableEq, Repr

/-- One CodeChef network call. -/
inductive CCNetResult where
  | ok (resp : CCResponse)
  | failed
deriving DecidableEq, Repr

/-- The normalized CodeChef payload (src/services/codechef.py lines 90-95). -/
structure CCRawPayload where
  username : String
  rating : Int
  solved : Int
  stars : String
deriving DecidableEq, Repr

/-- Digit characters, Python's `\d`. -/
def isDigitChar (c : Char) : Bool := c.isDigit

/-- Whitespace as matched by Python's `\s` (ASCII forms). -/
def isPySpace (c : Char) : Bool :=
  c == ' ' || c == '\t' || c == '\n' || c == '\r'

/-- Value of a digit string. -/
def digitsToNat (l : List Char) : Nat :=
  l.foldl (fun acc c => acc * 10 + (c.toNat - '0'.toNat)) 0

/-- Model of `re.search(r'\d+', s)`: the first maximal run of digits, if any. -/
def firstDigitRun : List Char → Option (List Char)
  | [] => none
  | c :: rest =>
    if isDigitChar c then some (c :: rest.takeWhile isDigitChar)
    else firstDigitRun rest

/-- Python `int(s)`: strips surrounding whitespace, accepts an optional sign
followed by at least one digit, raises `ValueError` otherwise.  (Underscore
digit separators are not modelled.) -/
def pyInt (s : String) : Py Int :=
  let core := fun (l : List Char) =>
    if l ≠ [] && l.all isDigitChar then Except.ok (digitsToNat l : Int)
    else Except.error PyExc.valueError
  match s.trim.toList with
  | '-' :: rest => (core rest).map (fun n => -n)
  | '+' :: rest => core rest
  | rest => core rest

/-- Model of `s.replace('(', '').replace(')', '')`. -/
def stripParens (s : String) : String :=
  String.mk (s.toList.filter (fun c => c != '(' && c != ')'))

/-- Matching `"fully_solved"\s*:\s*(\d+)` at the head of the text. -/
def matchFullySolvedAt (l : List Char) : Option Nat :=
  let pat := "\x22fully_solved\x22".toList
  if pat.isPrefixOf l then
    match (l.drop pat.length).dropWhile isPySpace with
    | ':' :: l3 =>
      let ds := (l3.dropWhile isPySpace).takeWhile isDigitChar
      if ds.isEmpty then none else some (digitsToNat ds)
    | _ => none
  else none

/-- Model of `re.search(r'"fully_solved"\s*:\s*(\d+)', s)`: the first position where
the pattern matches. -/
def searchFullySolved : List Char → Option Nat
  | [] => none
  | l@(_ :: rest) =>
    match matchFullySolvedAt l with
    | some n => some n
    | none => searchFullySolved rest

/-- The rating extraction of `get_user_stats`
(src/services/codechef.py lines 32-47): `div.rating-number` text via `int`
with `ValueError` swallowed, falling back to the `Rating : NNN` label text. -/
def ccRating (soup : Soup) : Int :=
  let r0 : Int :=
    match soup.rating_number_text with
    | none => 0
    | some t =>
      match pyInt t.trim with
      | .ok n => n
      | .error _ => 0
  if r0 == 0 then
    match soup.rating_label_text with
    | none => 0
    | some t =>
      match firstDigitRun t.toList with
      | some ds => (digitsToNat ds : Int)
      | none => 0
  else r0

/-- The `for script in scripts` fallback
(src/services/codechef.py lines 74-81): first script whose text mentions
`fully solved` and matches the count pattern. -/
def ccScriptsSolved : List (Option String) → Option Nat
  | [] => none
  | none :: rest => ccScriptsSolved rest
  | some s :: rest =>
    if strContains s.toLower "fully solved" then
      match searchFullySolved s.toList with
      | some n => some n
      | none => ccScriptsSolved rest
    else ccScriptsSolved rest

/-- The solved-count extraction of `get_user_stats`
(src/services/codechef.py lines 49-81): `section.problems-solved` heading,
then the `Fully Solved` count span, then the script-tag fallback. -/
def ccSolved (soup : Soup) : Int :=
  let s1 : Int :=
    match soup.problems_h5 with
    | some (some text) =>
      match firstDigitRun text.toList with
      | some ds => (digitsToNat ds : Int)
      | none => 0
    | _ => 0
  let s2 : Int :=
    if s1 == 0 then
      match soup.fully_solved_count with
      | some (some ctext) =>
        match pyInt (stripParens ctext.trim) with
        | .ok n => n
        | .error _ => 0
      | _ => 0
    else s1
  if s2 == 0 then
    match ccScriptsSolved soup.scripts with
    | some n => (n : Int)
    | none => 0
  else s2

/-- Model of `_get_star_rating` (src/services/codechef.py lines 104-120). -/
def get_star_rating (rating : Int) : String :=
  if rating ≥ 2500 then "7★"
  else if rating ≥ 2200 then "6★"
  else if rating ≥ 1800 then "5★"
  else if rating ≥ 1600 then "4★"
  else if rating ≥ 1400 then "3★"
  else if rating ≥ 1200 then "2★"
  else if rating > 0 then "1★"
  else "Unrated"

/-- The `try` body of `CodeChefAPI.get_user_stats`
(src/services/codechef.py lines 23-95). -/
def ccBody (username : String) (net : CCNetResult) : Py (Option CCRawPayload) := do
  let response ← (match net with
    | .ok r => Except.ok r
    | .failed => Except.error PyExc.reqExc)
  if response.status_code != 200 then
    return none
  let soup := response.soup
  let rating := ccRating soup
  let solved := ccSolved soup
  if rating == 0 && solved == 0 && !soup.user_details_present then
    return none
  return some { username := username, rating := rating, solved := solved,
                stars := get_star_rating rating }

/-- Model of `CodeChefAPI.get_user_stats` (src/services/codechef.py lines 18-102):
the body wrapped in `except requests.RequestException: return None` followed
by a blanket `except Exception: return None`. -/
def CodeChefAPI.get_user_stats (username : String) (net : CCNetResult) :
    Py (Option CCRawPayload) :=
  catchWith (fun _ => true) none (catchWith isReqExc none (ccBody username net))

/-!
## Helper lemmas

General characterizations of the retry loop, the per-student orchestrator and
the batch loop, shared by the claim theorems below. -/

/-- A failing attempt is a falsy result or an exception. -/
theorem isFail_elim {α : Type} {x : AttemptOutcome α} (h : x.isFail = true) :
    x = .nil ∨ ∃ e, x = .exc e := by
  cases x <;> simp_all [AttemptOutcome.isFail]

/-- A non-failing attempt is a success. -/
theorem isFail_false_elim {α : Type} {x : AttemptOutcome α} (h : x.isFail = false) :
    ∃ d, x = .ok d := by
  cases x <;> simp_all [AttemptOutcome.isFail]

/-- Running the retry loop when the first non-failing attempt is attempt `k`:
the loop makes exactly `k + 1` calls, sleeps `retryDelay` before each
re-attempt (and not after the success), appends exactly the success snapshot,
and returns. -/
theorem retryLoop_success_spec {α : Type} (call : Nat → AttemptOutcome α)
    (mkOk : α → Nat → StatsSnapshot) (mkFail : String → Nat → StatsSnapshot)
    (st : TraceState) (k : Nat) (d : α) (hk : k < maxRetries)
    (hfail : ∀ j, j < k → (call j).isFail = true) (hok : call k = .ok d) :
    retryLoop call mkOk mkFail st =
      { st with
          calls := st.calls + (k + 1),
          retrySleeps := st.retrySleeps ++ List.replicate k retryDelay,
          store := st.store ++ [mkOk d st.clock],
          clock := st.clock + 1 } := by
  have hrange : List.range maxRetries = [0, 1, 2] := rfl
  have hk3 : k < 3 := hk
  interval_cases k
  · simp [retryLoop, hrange, retryLoopGo, hok, TraceState.appendRow]
  · have h0 := hfail 0 (by omega)
    rcases isFail_elim h0 with c0 | ⟨e0, c0⟩ <;>
      simp [retryLoop, hrange, retryLoopGo, c0, hok, TraceState.appendRow,
        maxRetries, retryDelay, List.replicate]
  · have h0 := hfail 0 (by omega)
    have h1 := hfail 1 (by omega)
    rcases isFail_elim h0 with c0 | ⟨e0, c0⟩ <;>
      rcases isFail_elim h1 with c1 | ⟨e1, c1⟩ <;>
        simp [retryLoop, hrange, retryLoopGo, c0, c1, hok, TraceState.appendRow,
          maxRetries, retryDelay, List.replicate]

/-- Running the retry loop when every attempt fails: exactly `maxRetries`
calls, a sleep after each attempt but the last, and exactly one failed
snapshot carrying the last attempt's error message. -/
theorem retryLoop_exhaust_spec {α : Type} (call : Nat → AttemptOutcome α)
    (mkOk : α → Nat → StatsSnapshot) (mkFail : String → Nat → StatsSnapshot)
    (st : TraceState)
    (hfail : ∀ j, j < maxRetries → (call j).isFail = true) :
    retryLoop call mkOk mkFail st =
      { st with
          calls := st.calls + maxRetries,
          retrySleeps := st.retrySleeps ++ List.replicate (maxRetries - 1) retryDelay,
          store := st.store ++ [mkFail ((call (maxRetries - 1)).failMsg) st.clock],
          clock := st.clock + 1 } := by
  have hrange : List.range maxRetries = [0, 1, 2] := rfl
  have h0 := hfail 0 (by decide)
  have h1 := hfail 1 (by decide)
  have h2 := hfail 2 (by decide)
  rcases isFail_elim h0 with c0 | ⟨e0, c0⟩ <;>
    rcases isFail_elim h1 with c1 | ⟨e1, c1⟩ <;>
      rcases isFail_elim h2 with c2 | ⟨e2, c2⟩ <;>
        simp [retryLoop, hrange, retryLoopGo, c0, c1, c2, TraceState.appendRow,
          maxRetries, retryDelay, List.replicate, AttemptOutcome.failMsg]

/-- The attempts of a call either contain a success within the budget or all
fail. -/
theorem retry_cases {α : Type} (call : Nat → AttemptOutcome α) :
    (∃ k, k < maxRetries ∧ (call k).isFail = false) ∨
    (∀ k, k < maxRetries → (call k).isFail = true) := by
  by_cases h : ∀ k, k < maxRetries → (call k).isFail = true
  · exact Or.inr h
  · push_neg at h
    obtain ⟨k, hk, hf⟩ := h
    exact Or.inl ⟨k, hk, by simpa using hf⟩

/-- If some attempt within the budget succeeds, there is a first succeeding
attempt, preceded only by failures. -/
theorem retry_first_success {α : Type} (call : Nat → AttemptOutcome α)
    (h : ∃ k, k < maxRetries ∧ (call k).isFail = false) :
    ∃ k d, k < maxRetries ∧ (∀ j, j < k → (call j).isFail = true) ∧ call k = .ok d := by
  by_cases f0 : (call 0).isFail = false
  · obtain ⟨d, hd⟩ := isFail_false_elim f0
    exact ⟨0, d, by decide, fun j hj => absurd hj (Nat.not_lt_zero j), hd⟩
  · have f0' : (call 0).isFail = true := by simpa using f0
    by_cases f1 : (call 1).isFail = false
    · obtain ⟨d, hd⟩ := isFail_false_elim f1
      refine ⟨1, d, by decide, ?_, hd⟩
      intro j hj
      interval_cases j
      exact f0'
    · have f1' : (call 1).isFail = true := by simpa using f1
      obtain ⟨k, hk, hf⟩ := h
      have hk3 : k < 3 := hk
      have f2 : (call 2).isFail = false := by
        interval_cases k
        · exact absurd hf (by simp [f0'])
        · exact absurd hf (by simp [f1'])
        · exact hf
      obtain ⟨d, hd⟩ := isFail_false_elim f2
      refine ⟨2, d, by decide, ?_, hd⟩
      intro j hj
      interval_cases j
      · exact f0'
      · exact f1'

/-- One guarded retry step (`if student.handle: <retry loop>`): it appends
no row when the guard is falsy, and exactly one row — the success snapshot of
the first succeeding attempt, or the failed snapshot carrying the last
attempt's message — when the guard is truthy.  Inter-batch sleeps are never
touched. -/
theorem guarded_retry_decomp {α : Type} (flag : Bool) (call : Nat → AttemptOutcome α)
    (mkOk : α → Nat → StatsSnapshot) (mkFail : String → Nat → StatsSnapshot)
    (st : TraceState) :
    ∃ rows,
      (if flag then retryLoop call mkOk mkFail st else st).store = st.store ++ rows ∧
      (if flag then retryLoop call mkOk mkFail st else st).batchSleeps = st.batchSleeps ∧
      (flag = false → rows = []) ∧
      (flag = true →
        (∃ d, rows = [mkOk d st.clock] ∧
          ∃ k, k < maxRetries ∧ (call k).isFail = false) ∨
        (rows = [mkFail ((call (maxRetries - 1)).failMsg) st.clock] ∧
          ∀ k, k < maxRetries → (call k).isFail = true)) := by
  cases flag with
  | false => exact ⟨[], by simp, by simp, fun _ => rfl, by simp⟩
  | true =>
    rcases retry_cases call with hsucc | hfail
    · obtain ⟨k, d, hk, hpre, hok⟩ := retry_first_success call hsucc
      refine ⟨[mkOk d st.clock], ?_, ?_, by simp, ?_⟩
      · rw [if_pos rfl, retryLoop_success_spec call mkOk mkFail st k d hk hpre hok]
      · rw [if_pos rfl, retryLoop_success_spec call mkOk mkFail st k d hk hpre hok]
      · intro _
        exact Or.inl ⟨d, rfl, hsucc⟩
    · refine ⟨[mkFail ((call (maxRetries - 1)).failMsg) st.clock], ?_, ?_, by simp, ?_⟩
      · rw [if_pos rfl, retryLoop_exhaust_spec call mkOk mkFail st hfail]
      · rw [if_pos rfl, retryLoop_exhaust_spec call mkOk mkFail st hfail]
      · intro _
        exact Or.inr ⟨rfl, hfail⟩

/-- Decomposition of one per-student orchestration
(`_fetch_student_all_platforms`): the store grows by a block of rows per
platform — empty when the platform's handle is falsy, and otherwise exactly
one row, either the success snapshot of some succeeding attempt or the
failed snapshot carrying the last attempt's message; inter-batch sleeps are
untouched. -/
theorem fsap_decomp (api : Adapters) (s : Student) (st : TraceState) :
    ∃ cfRows lcRows ccRows,
      (fetch_student_all_platforms api s st).store =
        st.store ++ (cfRows ++ lcRows ++ ccRows) ∧
      (fetch_student_all_platforms api s st).batchSleeps = st.batchSleeps ∧
      (∀ r ∈ cfRows, r.student_id = s.id ∧ r.platform = "CF") ∧
      (∀ r ∈ lcRows, r.student_id = s.id ∧ r.platform = "LC") ∧
      (∀ r ∈ ccRows, r.student_id = s.id ∧ r.platform = "CC") ∧
      (pyTruthyStr s.cf_handle = false → cfRows = []) ∧
      (pyTruthyStr s.cf_handle = true →
        (∃ d t, cfRows = [mkCFSuccess s.id d t] ∧
          ∃ k, k < maxRetries ∧ ((api.cf (s.cf_handle.getD "")) k).isFail = false) ∨
        (∃ t, cfRows = [mkFailedSnapshot s.id "CF"
            (((api.cf (s.cf_handle.getD "")) (maxRetries - 1)).failMsg) t] ∧
          ∀ k, k < maxRetries → ((api.cf (s.cf_handle.getD "")) k).isFail = true)) ∧
      (pyTruthyStr s.lc_username = false → lcRows = []) ∧
      (pyTruthyStr s.lc_username = true →
        (∃ d t, lcRows = [mkLCSuccess s.id d t] ∧
          ∃ k, k < maxRetries ∧ ((api.lc (s.lc_username.getD "")) k).isFail = false) ∨
        (∃ t, lcRows = [mkFailedSnapshot s.id "LC"
            (((api.lc (s.lc_username.getD "")) (maxRetries - 1)).failMsg) t] ∧
          ∀ k, k < maxRetries → ((api.lc (s.lc_username.getD "")) k).isFail = true)) ∧
      (pyTruthyStr s.cc_username = false → ccRows = []) ∧
      (pyTruthyStr s.cc_username = true →
        (∃ d t, ccRows = [mkCCSuccess s.id d t] ∧
          ∃ k, k < maxRetries ∧ ((api.cc (s.cc_username.getD "")) k).isFail = false) ∨
        (∃ t, ccRows = [mkFailedSnapshot s.id "CC"
            (((api.cc (s.cc_username.getD "")) (maxRetries - 1)).failMsg) t] ∧
          ∀ k, k < maxRetries → ((api.cc (s.cc_username.getD "")) k).isFail = true)) := by
  obtain ⟨cfRows, hcf1, hcf2, hcf3, hcf4⟩ :=
    guarded_retry_decomp (pyTruthyStr s.cf_handle) (api.cf (s.cf_handle.getD ""))
      (mkCFSuccess s.id) (mkFailedSnapshot s.id "CF") st
  set st1 := if pyTruthyStr s.cf_handle then
    retryLoop (api.cf (s.cf_handle.getD "")) (mkCFSuccess s.id)
      (mkFailedSnapshot s.id "CF") st else st with hst1
  obtain ⟨lcRows, hlc1, hlc2, hlc3, hlc4⟩ :=
    guarded_retry_decomp (pyTruthyStr s.lc_username) (api.lc (s.lc_username.getD ""))
      (mkLCSuccess s.id) (mkFailedSnapshot s.id "LC") st1
  set st2 := if pyTruthyStr s.lc_username then
    retryLoop (api.lc (s.lc_username.getD "")) (mkLCSuccess s.id)
      (mkFailedSnapshot s.id "LC") st1 else st1 with hst2
  obtain ⟨ccRows, hcc1, hcc2, hcc3, hcc4⟩ :=
    guarded_retry_decomp (pyTruthyStr s.cc_username) (api.cc (s.cc_username.getD ""))
      (mkCCSuccess s.id) (mkFailedSnapshot s.id "CC") st2
  have hfs : fetch_student_all_platforms api s st =
      (if pyTruthyStr s.cc_username then
        retryLoop (api.cc (s.cc_username.getD "")) (mkCCSuccess s.id)
          (mkFailedSnapshot s.id "CC") st2 else st2) := by
    simp only [fetch_student_all_platforms, fetch_codeforces_stats,
      fetch_leetcode_stats, fetch_codechef_stats, hst1, hst2]
  refine ⟨cfRows, lcRows, ccRows, ?_, ?_, ?_, ?_, ?_, hcf3, ?_, hlc3, ?_, hcc3, ?_⟩
  · rw [hfs, hcc1, hlc1, hcf1]
    simp [List.append_assoc]
  · rw [hfs, hcc2, hlc2, hcf2]
  · intro r hr
    cases hb : pyTruthyStr s.cf_handle
    · rw [hcf3 hb] at hr
      simp at hr
    · rcases hcf4 hb with ⟨d, hrows, -⟩ | ⟨hrows, -⟩ <;> rw [hrows] at hr <;>
        simp at hr <;> subst hr <;> simp [mkCFSuccess, mkFailedSnapshot]
  · intro r hr
    cases hb : pyTruthyStr s.lc_username
    · rw [hlc3 hb] at hr
      simp at hr
    · rcases hlc4 hb with ⟨d, hrows, -⟩ | ⟨hrows, -⟩ <;> rw [hrows] at hr <;>
        simp at hr <;> subst hr <;> simp [mkLCSuccess, mkFailedSnapshot]
  · intro r hr
    cases hb : pyTruthyStr s.cc_username
    · rw [hcc3 hb] at hr
      simp at hr
    · rcases hcc4 hb with ⟨d, hrows, -⟩ | ⟨hrows, -⟩ <;> rw [hrows] at hr <;>
        simp at hr <;> subst hr <;> simp [mkCCSuccess, mkFailedSnapshot]
  · intro hflag
    rcases hcf4 hflag with ⟨d, hrows, hex⟩ | ⟨hrows, hall⟩
    · exact Or.inl ⟨d, st.clock, hrows, hex⟩
    · exact Or.inr ⟨st.clock, hrows, hall⟩
  · intro hflag
    rcases hlc4 hflag with ⟨d, hrows, hex⟩ | ⟨hrows, hall⟩
    · exact Or.inl ⟨d, st1.clock, hrows, hex⟩
    · exact Or.inr ⟨st1.clock, hrows, hall⟩
  · intro hflag
    rcases hcc4 hflag with ⟨d, hrows, hex⟩ | ⟨hrows, hall⟩
    · exact Or.inl ⟨d, st2.clock, hrows, hex⟩
    · exact Or.inr ⟨st2.clock, hrows, hall⟩

/-- One per-student orchestration only appends to the store. -/
theorem fsap_store_extends (api : Adapters) (s : Student) (st : TraceState) :
    ∃ t, (fetch_student_all_platforms api s st).store = st.store ++ t := by
  obtain ⟨cf, lc, cc, h1, -⟩ := fsap_decomp api s st
  exact ⟨cf ++ lc ++ cc, h1⟩

/-- One per-student orchestration never records an inter-batch sleep. -/
theorem fsap_batchSleeps (api : Adapters) (s : Student) (st : TraceState) :
    (fetch_student_all_platforms api s st).batchSleeps = st.batchSleeps := by
  obtain ⟨cf, lc, cc, -, h2, -⟩ := fsap_decomp api s st
  exact h2

/-- Processing a batch of students only appends to the store and never
records an inter-batch sleep. -/
theorem fold_fsap_props (api : Adapters) (batch : List Student) : ∀ st : TraceState,
    (∃ t, (batch.foldl (fun acc x => fetch_student_all_platforms api x acc) st).store
        = st.store ++ t) ∧
    (batch.foldl (fun acc x => fetch_student_all_platforms api x acc) st).batchSleeps
        = st.batchSleeps := by
  induction batch with
  | nil => exact fun st => ⟨⟨[], by simp⟩, rfl⟩
  | cons x xs ih =>
    intro st
    constructor
    · obtain ⟨t1, ht1⟩ := fsap_store_extends api x st
      obtain ⟨⟨t2, ht2⟩, -⟩ := ih (fetch_student_all_platforms api x st)
      exact ⟨t1 ++ t2, by simp [List.foldl_cons, ht2, ht1]⟩
    · obtain ⟨-, h⟩ := ih (fetch_student_all_platforms api x st)
      simp [List.foldl_cons, h, fsap_batchSleeps]

/-- The batch loop: the store only grows, and the recorded inter-batch
sleeps are exactly one 2-unit sleep per processed start index `i` with
`i + batch_size < len(students)`. -/
theorem batchLoopGo_props (api : Adapters) (l : List Student) : ∀ (starts : List Nat)
    (st : TraceState),
    (∃ t, (batchLoopGo api l starts st).store = st.store ++ t) ∧
    (batchLoopGo api l starts st).batchSleeps = st.batchSleeps ++
      List.replicate
        ((starts.filter (fun i => decide (i + batchSize < l.length))).length) 2 := by
  intro starts
  induction starts with
  | nil => exact fun st => ⟨⟨[], by simp [batchLoopGo]⟩, by simp [batchLoopGo]⟩
  | cons i rest ih =>
    intro st
    obtain ⟨⟨tb, htb⟩, hbs⟩ := fold_fsap_props api ((l.drop i).take batchSize) st
    by_cases hlt : i + batchSize < l.length
    · have hgo : batchLoopGo api l (i :: rest) st =
          batchLoopGo api l rest
            { ((l.drop i).take batchSize).foldl
                (fun acc x => fetch_student_all_platforms api x acc) st with
                batchSleeps := (((l.drop i).take batchSize).foldl
                  (fun acc x => fetch_student_all_platforms api x acc) st).batchSleeps
                  ++ [2] } := by
        simp [batchLoopGo, hlt]
      obtain ⟨⟨t2, ht2⟩, hbs2⟩ := ih
        { ((l.drop i).take batchSize).foldl
            (fun acc x => fetch_student_all_platforms api x acc) st with
            batchSleeps := (((l.drop i).take batchSize).foldl
              (fun acc x => fetch_student_all_platforms api x acc) st).batchSleeps
              ++ [2] }
      constructor
      · exact ⟨tb ++ t2, by rw [hgo, ht2]; simp [htb]⟩
      · rw [hgo, hbs2]
        simp [hbs, List.filter_cons, hlt, List.replicate_succ]
    · have hgo : batchLoopGo api l (i :: rest) st =
          batchLoopGo api l rest
            (((l.drop i).take batchSize).foldl
              (fun acc x => fetch_student_all_platforms api x acc) st) := by
        simp [batchLoopGo, hlt]
      obtain ⟨⟨t2, ht2⟩, hbs2⟩ := ih
        (((l.drop i).take batchSize).foldl
          (fun acc x => fetch_student_all_platforms api x acc) st)
      constructor
      · exact ⟨tb ++ t2, by rw [hgo, ht2]; simp [htb]⟩
      · rw [hgo, hbs2]
        simp [hbs, List.filter_cons, hlt]

/-- Every start index produced for the batch loop is in range. -/
theorem mem_batchStartsAux : ∀ (fuel i n j : Nat), j ∈ batchStartsAux fuel i n → j < n := by
  intro fuel
  induction fuel with
  | zero => intro i n j h; simp [batchStartsAux] at h
  | succ fuel ih =>
    intro i n j h
    rw [batchStartsAux] at h
    by_cases hi : i < n
    · rw [if_pos hi] at h
      rcases List.mem_cons.mp h with rfl | h'
      · exact hi
      · exact ih _ _ _ h'
    · rw [if_neg hi] at h
      simp at h

/-- The batch slices starting from index `i` concatenate to the roster's
tail from `i` (given enough fuel). -/
theorem batchStartsAux_join (l : List Student) : ∀ fuel i,
    l.length ≤ i + fuel * batchSize →
    ((batchStartsAux fuel i l.length).map
      (fun j => (l.drop j).take batchSize)).flatten = l.drop i := by
  intro fuel
  induction fuel with
  | zero =>
    intro i hle
    have h : l.length ≤ i := by simpa using hle
    simp [batchStartsAux, List.drop_eq_nil_of_le h]
  | succ fuel ih =>
    intro i hle
    rw [batchStartsAux]
    by_cases hi : i < l.length
    · rw [if_pos hi, List.map_cons, List.flatten_cons]
      have h2 : l.length ≤ (i + batchSize) + fuel * batchSize := by
        have : (fuel + 1) * batchSize = fuel * batchSize + batchSize := by ring
        omega
      rw [ih (i + batchSize) h2]
      have hdd : l.drop (i + batchSize) = (l.drop i).drop batchSize := by
        rw [List.drop_drop, Nat.add_comm]
      rw [hdd, List.take_append_drop]
    · rw [if_neg hi]
      simp [List.drop_eq_nil_of_le (Nat.le_of_not_lt hi)]

/-- When the roster lookup finds the student, the on-demand trigger returns
`True` and performs exactly one per-student orchestration (its guarded
platform blocks are the same code). -/
theorem fss_found (api : Adapters) (roster : List Student) (sid : Nat)
    (st : TraceState) (s : Student)
    (hfind : roster.find? (fun x => x.id == sid) = some s) :
    fetch_student_stats api roster sid st =
      (true, fetch_student_all_platforms api s st) := by
  simp [fetch_student_stats, hfind, fetch_student_all_platforms,
    fetch_codeforces_stats, fetch_leetcode_stats, fetch_codechef_stats]

/-- When the roster lookup fails, the on-demand trigger returns `False` and
changes nothing. -/
theorem fss_not_found (api : Adapters) (roster : List Student) (sid : Nat)
    (st : TraceState)
    (hfind : roster.find? (fun x => x.id == sid) = none) :
    fetch_student_stats api roster sid st = (false, st) := by
  simp [fetch_student_stats, hfind]

/-- From the two possible outcomes of a platform block, the snapshot status
characterizes which one occurred. -/
theorem status_iff_of_shape {α : Type} (call : Nat → AttemptOutcome α)
    (row : StatsSnapshot)
    (h : (row.fetch_status = "success" ∧ ∃ k, k < maxRetries ∧ (call k).isFail = false) ∨
         (row.fetch_status = "failed" ∧ ∀ k, k < maxRetries → (call k).isFail = true)) :
    (row.fetch_status = "success" ↔ ∃ k, k < maxRetries ∧ (call k).isFail = false) ∧
    (row.fetch_status = "failed" ↔ ∀ k, k < maxRetries → (call k).isFail = true) := by
  rcases h with ⟨hs, hex⟩ | ⟨hf, hall⟩
  · refine ⟨⟨fun _ => hex, fun _ => hs⟩, ?_, ?_⟩
    · intro hfd
      rw [hs] at hfd
      simp at hfd
    · intro hall
      obtain ⟨k, hk, hok⟩ := hex
      rw [hall k hk] at hok
      simp at hok
  · refine ⟨⟨?_, ?_⟩, fun _ => hall, fun _ => hf⟩
    · intro hsd
      rw [hf] at hsd
      simp at hsd
    · intro hex
      obtain ⟨k, hk, hok⟩ := hex
      rw [hall k hk] at hok
      simp at hok

/-- The start indices that trigger an inter-batch sleep are exactly all but
the last one. -/
theorem batchStartsAux_filter_dropLast : ∀ fuel i n, n ≤ i + fuel * batchSize →
    (batchStartsAux fuel i n).filter (fun j => decide (j + batchSize < n)) =
      (batchStartsAux fuel i n).dropLast := by
  intro fuel
  induction fuel with
  | zero => intro i n h; simp [batchStartsAux]
  | succ fuel ih =>
    intro i n h
    rw [batchStartsAux]
    by_cases hi : i < n
    · rw [if_pos hi]
      by_cases hnext : i + batchSize < n
      · have hne : batchStartsAux fuel (i + batchSize) n ≠ [] := by
          have hfuel : 0 < fuel := by
            rcases Nat.eq_zero_or_pos fuel with rfl | hp
            · simp at h; omega
            · exact hp
          obtain ⟨fuel', rfl⟩ : ∃ f, fuel = f + 1 := ⟨fuel - 1, by omega⟩
          rw [batchStartsAux, if_pos hnext]
          simp
        have h2 : n ≤ (i + batchSize) + fuel * batchSize := by
          have : (fuel + 1) * batchSize = fuel * batchSize + batchSize := by ring
          omega
        rw [List.filter_cons, if_pos (by simpa using hnext), ih (i + batchSize) n h2,
          List.dropLast_cons_of_ne_nil hne]
      · have hrest : batchStartsAux fuel (i + batchSize) n = [] := by
          cases fuel <;> simp [batchStartsAux, hnext]
        rw [hrest, List.filter_cons, if_neg (by simpa using hnext)]
        simp
    · rw [if_neg hi]
      simp

/-- Every row a per-student orchestration appends belongs to that student
and to a platform whose handle was truthy. -/
theorem fsap_new_row_origin (api : Adapters) (s : Student) (st : TraceState) :
    ∀ r ∈ (fetch_student_all_platforms api s st).store.drop st.store.length,
      r.student_id = s.id ∧
      ((r.platform = "CF" ∧ pyTruthyStr s.cf_handle = true) ∨
       (r.platform = "LC" ∧ pyTruthyStr s.lc_username = true) ∨
       (r.platform = "CC" ∧ pyTruthyStr s.cc_username = true)) := by
  obtain ⟨cf, lc, cc, h1, h2, hcfP, hlcP, hccP, hcf0, hcf1, hlc0, hlc1, hcc0, hcc1⟩ :=
    fsap_decomp api s st
  intro r hr
  rw [h1, List.drop_left] at hr
  have hcfFlag : r ∈ cf → pyTruthyStr s.cf_handle = true := by
    intro hm
    cases hb : pyTruthyStr s.cf_handle
    · rw [hcf0 hb] at hm
      simp at hm
    · rfl
  have hlcFlag : r ∈ lc → pyTruthyStr s.lc_username = true := by
    intro hm
    cases hb : pyTruthyStr s.lc_username
    · rw [hlc0 hb] at hm
      simp at hm
    · rfl
  have hccFlag : r ∈ cc → pyTruthyStr s.cc_username = true := by
    intro hm
    cases hb : pyTruthyStr s.cc_username
    · rw [hcc0 hb] at hm
      simp at hm
    · rfl
  rcases List.mem_append.mp hr with hm | hm'
  · rcases List.mem_append.mp hm with hmc | hml
    · exact ⟨(hcfP r hmc).1, Or.inl ⟨(hcfP r hmc).2, hcfFlag hmc⟩⟩
    · exact ⟨(hlcP r hml).1, Or.inr (Or.inl ⟨(hlcP r hml).2, hlcFlag hml⟩)⟩
  · exact ⟨(hccP r hm').1, Or.inr (Or.inr ⟨(hccP r hm').2, hccFlag hm'⟩)⟩

/-!
## Claim theorems
-/

/-- C1: the retry loop wrapping an adapter call attempts it at most 3
times; it appends the success snapshot and returns immediately after the
first attempt with a non-absent result, having slept the fixed 2-unit delay
exactly once before each re-attempt and never after the success; and when
all 3 attempts fail it makes exactly 3 calls, sleeps only between attempts
(never after the last), and records a terminal failed snapshot carrying the
last attempt's error message. -/
theorem claim_C1 (call : Nat → AttemptOutcome CFData) (sid : Nat) (st : TraceState) :
    (fetch_codeforces_stats call sid st).calls ≤ st.calls + maxRetries ∧
    (∀ k d, k < maxRetries → (∀ j, j < k → (call j).isFail = true) →
      call k = .ok d →
      fetch_codeforces_stats call sid st =
        { st with
            calls := st.calls + (k + 1),
            retrySleeps := st.retrySleeps ++ List.replicate k retryDelay,
            store := st.store ++ [mkCFSuccess sid d st.clock],
            clock := st.clock + 1 }) ∧
    ((∀ j, j < maxRetries → (call j).isFail = true) →
      fetch_codeforces_stats call sid st =
        { st with
            calls := st.calls + maxRetries,
            retrySleeps := st.retrySleeps ++ List.replicate (maxRetries - 1) retryDelay,
            store := st.store ++
              [mkFailedSnapshot sid "CF" ((call (maxRetries - 1)).failMsg) st.clock],
            clock := st.clock + 1 }) := by
  refine ⟨?_, ?_, ?_⟩
  · rcases retry_cases call with hsucc | hfail
    · obtain ⟨k, d, hk, hpre, hok⟩ := retry_first_success call hsucc
      have h := retryLoop_success_spec call (mkCFSuccess sid)
        (mkFailedSnapshot sid "CF") st k d hk hpre hok
      simp only [fetch_codeforces_stats]
      rw [h]
      simp
      omega
    · have h := retryLoop_exhaust_spec call (mkCFSuccess sid)
        (mkFailedSnapshot sid "CF") st hfail
      simp only [fetch_codeforces_stats]
      rw [h]
  · intro k d hk hpre hok
    exact retryLoop_success_spec call (mkCFSuccess sid)
      (mkFailedSnapshot sid "CF") st k d hk hpre hok
  · intro hfail
    exact retryLoop_exhaust_spec call (mkCFSuccess sid)
      (mkFailedSnapshot sid "CF") st hfail

/-- Witness for C1: an adapter call that raises on attempt 0, returns an
absent result on attempt 1 and succeeds on attempt 2 makes exactly 3 calls,
sleeps twice, and persists exactly the success snapshot. -/
theorem claim_C1_witness :
    fetch_codeforces_stats
        (fun j => if j == 0 then AttemptOutcome.exc "boom"
          else if j == 1 then AttemptOutcome.nil
          else AttemptOutcome.ok { rating := 1500, max_rating := 1600, solved := 42 }) 7
        {} =
      { store := [mkCFSuccess 7 { rating := 1500, max_rating := 1600, solved := 42 } 0],
        retrySleeps := [2, 2], batchSleeps := [], calls := 3, clock := 1 } := by
  have h := (claim_C1
    (fun j => if j == 0 then AttemptOutcome.exc "boom"
      else if j == 1 then AttemptOutcome.nil
      else AttemptOutcome.ok { rating := 1500, max_rating := 1600, solved := 42 }) 7
    {}).2.1 2 { rating := 1500, max_rating := 1600, solved := 42 }
    (by decide) (by intro j hj; interval_cases j <;> rfl) rfl
  rw [h]
  rfl

/-- C2: in one orchestration of a student, each platform with a truthy
handle contributes exactly one appended snapshot for that (student,
platform) pair — with status `success` precisely when some attempt within
the retry budget succeeds, and status `failed` precisely when all attempts
fail — never zero rows and never more than one. -/
theorem claim_C2 (api : Adapters) (s : Student) (st : TraceState) :
    ∃ cfRows lcRows ccRows,
      (fetch_student_all_platforms api s st).store =
        st.store ++ (cfRows ++ lcRows ++ ccRows) ∧
      (∀ r ∈ cfRows, r.student_id = s.id ∧ r.platform = "CF") ∧
      (∀ r ∈ lcRows, r.student_id = s.id ∧ r.platform = "LC") ∧
      (∀ r ∈ ccRows, r.student_id = s.id ∧ r.platform = "CC") ∧
      (pyTruthyStr s.cf_handle = true → ∃ row, cfRows = [row] ∧
        (row.fetch_status = "success" ↔
          ∃ k, k < maxRetries ∧ ((api.cf (s.cf_handle.getD "")) k).isFail = false) ∧
        (row.fetch_status = "failed" ↔
          ∀ k, k < maxRetries → ((api.cf (s.cf_handle.getD "")) k).isFail = true)) ∧
      (pyTruthyStr s.lc_username = true → ∃ row, lcRows = [row] ∧
        (row.fetch_status = "success" ↔
          ∃ k, k < maxRetries ∧ ((api.lc (s.lc_username.getD "")) k).isFail = false) ∧
        (row.fetch_status = "failed" ↔
          ∀ k, k < maxRetries → ((api.lc (s.lc_username.getD "")) k).isFail = true)) ∧
      (pyTruthyStr s.cc_username = true → ∃ row, ccRows = [row] ∧
        (row.fetch_status = "success" ↔
          ∃ k, k < maxRetries ∧ ((api.cc (s.cc_username.getD "")) k).isFail = false) ∧
        (row.fetch_status = "failed" ↔
          ∀ k, k < maxRetries → ((api.cc (s.cc_username.getD "")) k).isFail = true)) := by
  obtain ⟨cf, lc, cc, h1, h2, hcfP, hlcP, hccP, hcf0, hcf1, hlc0, hlc1, hcc0, hcc1⟩ :=
    fsap_decomp api s st
  refine ⟨cf, lc, cc, h1, hcfP, hlcP, hccP, ?_, ?_, ?_⟩
  · intro hb
    rcases hcf1 hb with ⟨d, t, hrows, hex⟩ | ⟨t, hrows, hall⟩
    · exact ⟨mkCFSuccess s.id d t, hrows,
        status_iff_of_shape _ _ (Or.inl ⟨by simp [mkCFSuccess], hex⟩)⟩
    · exact ⟨_, hrows,
        status_iff_of_shape _ _ (Or.inr ⟨by simp [mkFailedSnapshot], hall⟩)⟩
  · intro hb
    rcases hlc1 hb with ⟨d, t, hrows, hex⟩ | ⟨t, hrows, hall⟩
    · exact ⟨mkLCSuccess s.id d t, hrows,
        status_iff_of_shape _ _ (Or.inl ⟨by simp [mkLCSuccess], hex⟩)⟩
    · exact ⟨_, hrows,
        status_iff_of_shape _ _ (Or.inr ⟨by simp [mkFailedSnapshot], hall⟩)⟩
  · intro hb
    rcases hcc1 hb with ⟨d, t, hrows, hex⟩ | ⟨t, hrows, hall⟩
    · exact ⟨mkCCSuccess s.id d t, hrows,
        status_iff_of_shape _ _ (Or.inl ⟨by simp [mkCCSuccess], hex⟩)⟩
    · exact ⟨_, hrows,
        status_iff_of_shape _ _ (Or.inr ⟨by simp [mkFailedSnapshot], hall⟩)⟩

/-- Witness for C2: a student with only a Codeforces handle whose adapter
succeeds immediately gets exactly one success snapshot appended. -/
theorem claim_C2_witness :
    (fetch_student_all_platforms
        ⟨fun _ _ => .ok { rating := 1, max_rating := 2, solved := 3 },
         fun _ _ => .nil, fun _ _ => .nil⟩
        { id := 1, cf_handle := some "tourist" } {}).store =
      [mkCFSuccess 1 { rating := 1, max_rating := 2, solved := 3 } 0] := by
  obtain ⟨cf, lc, cc, h1, hcfP, hlcP, hccP, hcf, hlc, hcc⟩ :=
    claim_C2
      ⟨fun _ _ => .ok { rating := 1, max_rating := 2, solved := 3 },
       fun _ _ => .nil, fun _ _ => .nil⟩
      { id := 1, cf_handle := some "tourist" } {}
  obtain ⟨row, hrow, hiffS, hiffF⟩ := hcf (by decide)
  rfl

/-- C4: a platform whose handle is not registered (falsy) is skipped
entirely — neither the periodic per-student orchestration nor the on-demand
single-student path appends any snapshot for that platform. -/
theorem claim_C4 (api : Adapters) (s : Student) (roster : List Student)
    (sid : Nat) (st : TraceState) :
    (pyTruthyStr s.cf_handle = false →
      ∀ r ∈ (fetch_student_all_platforms api s st).store.drop st.store.length,
        r.platform ≠ "CF") ∧
    (pyTruthyStr s.lc_username = false →
      ∀ r ∈ (fetch_student_all_platforms api s st).store.drop st.store.length,
        r.platform ≠ "LC") ∧
    (pyTruthyStr s.cc_username = false →
      ∀ r ∈ (fetch_student_all_platforms api s st).store.drop st.store.length,
        r.platform ≠ "CC") ∧
    (∀ s', roster.find? (fun x => x.id == sid) = some s' →
      (pyTruthyStr s'.cf_handle = false →
        ∀ r ∈ ((fetch_student_stats api roster sid st).2).store.drop st.store.length,
          r.platform ≠ "CF") ∧
      (pyTruthyStr s'.lc_username = false →
        ∀ r ∈ ((fetch_student_stats api roster sid st).2).store.drop st.store.length,
          r.platform ≠ "LC") ∧
      (pyTruthyStr s'.cc_username = false →
        ∀ r ∈ ((fetch_student_stats api roster sid st).2).store.drop st.store.length,
          r.platform ≠ "CC")) := by
  have key : ∀ (x : Student),
      (pyTruthyStr x.cf_handle = false →
        ∀ r ∈ (fetch_student_all_platforms api x st).store.drop st.store.length,
          r.platform ≠ "CF") ∧
      (pyTruthyStr x.lc_username = false →
        ∀ r ∈ (fetch_student_all_platforms api x st).store.drop st.store.length,
          r.platform ≠ "LC") ∧
      (pyTruthyStr x.cc_username = false →
        ∀ r ∈ (fetch_student_all_platforms api x st).store.drop st.store.length,
          r.platform ≠ "CC") := by
    intro x
    refine ⟨?_, ?_, ?_⟩ <;> intro hb r hr heq <;>
      rcases (fsap_new_row_origin api x st r hr).2 with ⟨hp, hf⟩ | ⟨hp, hf⟩ | ⟨hp, hf⟩ <;>
        simp_all
  refine ⟨(key s).1, (key s).2.1, (key s).2.2, ?_⟩
  intro s' hfind
  rw [fss_found api roster sid st s' hfind]
  exact key s'

/-- Witness for C4: a student with no handles at all gets no snapshot from
an orchestration. -/
theorem claim_C4_witness :
    (fetch_student_all_platforms
        ⟨fun _ _ => .nil, fun _ _ => .nil, fun _ _ => .nil⟩
        { id := 3 } {}).store = [] := by
  obtain ⟨hcf, hlc, hcc, hdem⟩ :=
    claim_C4 ⟨fun _ _ => .nil, fun _ _ => .nil, fun _ _ => .nil⟩
      { id := 3 } [] 0 {}
  have := hcf rfl
  rfl

/-- C9: when the retries of a (student, platform) pair are exhausted, the
snapshot appended has status `failed`, zero solved count, absent rating,
max-rating and difficulty-tier fields, and retains the error description of
the last attempt. -/
theorem claim_C9 (cfCall : Nat → AttemptOutcome CFData)
    (lcCall : Nat → AttemptOutcome LCData) (ccCall : Nat → AttemptOutcome CCData)
    (sid : Nat) (st : TraceState) :
    ((∀ k, k < maxRetries → (cfCall k).isFail = true) →
      ∃ row, (fetch_codeforces_stats cfCall sid st).store = st.store ++ [row] ∧
        row.fetch_status = "failed" ∧ row.solved = 0 ∧ row.rating = none ∧
        row.max_rating = none ∧ row.easy = none ∧ row.medium = none ∧
        row.hard = none ∧
        row.error_message = some ((cfCall (maxRetries - 1)).failMsg)) ∧
    ((∀ k, k < maxRetries → (lcCall k).isFail = true) →
      ∃ row, (fetch_leetcode_stats lcCall sid st).store = st.store ++ [row] ∧
        row.fetch_status = "failed" ∧ row.solved = 0 ∧ row.rating = none ∧
        row.max_rating = none ∧ row.easy = none ∧ row.medium = none ∧
        row.hard = none ∧
        row.error_message = some ((lcCall (maxRetries - 1)).failMsg)) ∧
    ((∀ k, k < maxRetries → (ccCall k).isFail = true) →
      ∃ row, (fetch_codechef_stats ccCall sid st).store = st.store ++ [row] ∧
        row.fetch_status = "failed" ∧ row.solved = 0 ∧ row.rating = none ∧
        row.max_rating = none ∧ row.easy = none ∧ row.medium = none ∧
        row.hard = none ∧
        row.error_message = some ((ccCall (maxRetries - 1)).failMsg)) := by
  refine ⟨?_, ?_, ?_⟩
  · intro hfail
    have h := retryLoop_exhaust_spec cfCall (mkCFSuccess sid)
      (mkFailedSnapshot sid "CF") st hfail
    refine ⟨mkFailedSnapshot sid "CF" ((cfCall (maxRetries - 1)).failMsg) st.clock, ?_,
      by simp [mkFailedSnapshot]⟩
    simp only [fetch_codeforces_stats]
    rw [h]
  · intro hfail
    have h := retryLoop_exhaust_spec lcCall (mkLCSuccess sid)
      (mkFailedSnapshot sid "LC") st hfail
    refine ⟨mkFailedSnapshot sid "LC" ((lcCall (maxRetries - 1)).failMsg) st.clock, ?_,
      by simp [mkFailedSnapshot]⟩
    simp only [fetch_leetcode_stats]
    rw [h]
  · intro hfail
    have h := retryLoop_exhaust_spec ccCall (mkCCSuccess sid)
      (mkFailedSnapshot sid "CC") st hfail
    refine ⟨mkFailedSnapshot sid "CC" ((ccCall (maxRetries - 1)).failMsg) st.clock, ?_,
      by simp [mkFailedSnapshot]⟩
    simp only [fetch_codechef_stats]
    rw [h]

/-- Witness for C9: an always-raising Codeforces call leaves exactly one
failed snapshot with zeroed/absent payload and the last error retained. -/
theorem claim_C9_witness :
    (fetch_codeforces_stats (fun _ => .exc "connection timed out") 5 {}).store =
      [mkFailedSnapshot 5 "CF" "connection timed out" 0] ∧
    (mkFailedSnapshot 5 "CF" "connection timed out" 0).fetch_status = "failed" ∧
    (mkFailedSnapshot 5 "CF" "connection timed out" 0).solved = 0 ∧
    (mkFailedSnapshot 5 "CF" "connection timed out" 0).rating = none ∧
    (mkFailedSnapshot 5 "CF" "connection timed out" 0).error_message =
      some "connection timed out" := by
  obtain ⟨row, hst, hfields⟩ :=
    (claim_C9 (fun _ => .exc "connection timed out")
      (fun _ => .nil) (fun _ => .nil) 5 {}).1 (fun k _ => rfl)
  exact ⟨by rfl, rfl, rfl, rfl, rfl⟩

/-- C10: the on-demand trigger returns `False` exactly when no student with
the given id exists (appending nothing and fetching nothing), and returns
`True` for every existing student — including one with no truthy handles,
for whom nothing is appended. -/
theorem claim_C10 (api : Adapters) (roster : List Student) (sid : Nat)
    (st : TraceState) :
    ((fetch_student_stats api roster sid st).1 = false ↔ ∀ s ∈ roster, s.id ≠ sid) ∧
    ((∀ s ∈ roster, s.id ≠ sid) → fetch_student_stats api roster sid st = (false, st)) ∧
    ((∃ s ∈ roster, s.id = sid) → (fetch_student_stats api roster sid st).1 = true) ∧
    (∀ s, roster.find? (fun x => x.id == sid) = some s →
      pyTruthyStr s.cf_handle = false → pyTruthyStr s.lc_username = false →
      pyTruthyStr s.cc_username = false →
      fetch_student_stats api roster sid st = (true, st)) := by
  have hnone : roster.find? (fun x => x.id == sid) = none ↔ ∀ s ∈ roster, s.id ≠ sid := by
    rw [List.find?_eq_none]
    simp
  refine ⟨?_, ?_, ?_, ?_⟩
  · rw [← hnone]
    cases hf : roster.find? (fun x => x.id == sid) with
    | none => simp [fss_not_found api roster sid st hf]
    | some s => simp [fss_found api roster sid st s hf]
  · intro h
    exact fss_not_found api roster sid st (hnone.mpr h)
  · intro ⟨s, hs, hid⟩
    have : ∃ x, roster.find? (fun x => x.id == sid) = some x := by
      rw [← Option.isSome_iff_exists, List.find?_isSome]
      exact ⟨s, hs, by simp [hid]⟩
    obtain ⟨x, hx⟩ := this
    rw [fss_found api roster sid st x hx]
  · intro s hfind h1 h2 h3
    rw [fss_found api roster sid st s hfind]
    simp [fetch_student_all_platforms, h1, h2, h3]

/-- Witness for C10: a roster with one handle-less student — the on-demand
trigger returns `True` for the student and `False` for a missing id, in both
cases appending nothing. -/
theorem claim_C10_witness :
    fetch_student_stats ⟨fun _ _ => .nil, fun _ _ => .nil, fun _ _ => .nil⟩
        [{ id := 1 }] 1 {} = (true, {}) ∧
    fetch_student_stats ⟨fun _ _ => .nil, fun _ _ => .nil, fun _ _ => .nil⟩
        [{ id := 1 }] 2 {} = (false, {}) := by
  refine ⟨?_, ?_⟩
  · exact (claim_C10 ⟨fun _ _ => .nil, fun _ _ => .nil, fun _ _ => .nil⟩
      [{ id := 1 }] 1 {}).2.2.2 { id := 1 } rfl rfl rfl rfl
  · exact (claim_C10 ⟨fun _ _ => .nil, fun _ _ => .nil, fun _ _ => .nil⟩
      [{ id := 1 }] 2 {}).2.1 (by simp)

/-- C3: the batch loop partitions the roster into consecutive slices of 10
students (every batch nonempty and of size 10 except possibly a smaller
last one), processes them in order, records the fixed 2-unit pause after
every batch except the last, and is a complete no-op on an empty roster; a
23-student roster yields exactly batches of sizes 10, 10, 3 with two
pauses. -/
theorem claim_C3 (api : Adapters) (students : List Student) (st : TraceState) :
    fetch_all_stats api [] st = st ∧
    (batchesOf students).flatten = students ∧
    (∀ b ∈ batchesOf students, b ≠ [] ∧ b.length ≤ batchSize) ∧
    (∀ b ∈ (batchesOf students).dropLast, b.length = batchSize) ∧
    (students ≠ [] →
      (fetch_all_stats api students st).batchSleeps =
        st.batchSleeps ++ List.replicate ((batchesOf students).length - 1) 2) ∧
    (students.length = 23 →
      (batchesOf students).map List.length = [10, 10, 3] ∧
      (fetch_all_stats api students st).batchSleeps = st.batchSleeps ++ [2, 2]) := by
  have hle : students.length ≤ 0 + students.length * batchSize := by
    simp only [batchSize]
    omega
  have hsleeps : students ≠ [] →
      (fetch_all_stats api students st).batchSleeps =
        st.batchSleeps ++ List.replicate ((batchesOf students).length - 1) 2 := by
    intro hne
    have hempty : students.isEmpty = false := by
      simpa [List.isEmpty_iff] using hne
    have hgo : fetch_all_stats api students st =
        batchLoopGo api students (batchStarts students.length) st := by
      simp [fetch_all_stats, hempty]
    rw [hgo, (batchLoopGo_props api students (batchStarts students.length) st).2]
    have hfd := batchStartsAux_filter_dropLast students.length 0 students.length hle
    rw [batchStarts, hfd]
    have hlen : (batchStartsAux students.length 0 students.length).dropLast.length =
        (batchStartsAux students.length 0 students.length).length - 1 :=
      List.length_dropLast _
    rw [hlen]
    have : (batchesOf students).length =
        (batchStartsAux students.length 0 students.length).length := by
      simp [batchesOf, batchStarts]
    rw [this]
  refine ⟨by simp [fetch_all_stats], ?_, ?_, ?_, hsleeps, ?_⟩
  · have h := batchStartsAux_join students students.length 0 hle
    simpa [batchesOf, batchStarts] using h
  · intro b hb
    obtain ⟨j, hj, hbj⟩ := List.mem_map.mp hb
    have hjn : j < students.length := mem_batchStartsAux _ _ _ _ hj
    subst hbj
    have hlen : ((students.drop j).take batchSize).length =
        min batchSize (students.length - j) := by
      rw [List.length_take, List.length_drop]
    constructor
    · rw [← List.length_pos_iff_ne_nil, hlen]
      have hb10 : batchSize = 10 := rfl
      omega
    · rw [hlen]
      exact Nat.min_le_left _ _
  · intro b hb
    rw [batchesOf, ← List.map_dropLast, batchStarts,
      ← batchStartsAux_filter_dropLast students.length 0 students.length hle] at hb
    obtain ⟨j, hjf, hbj⟩ := List.mem_map.mp hb
    obtain ⟨hj, hcond⟩ := List.mem_filter.mp hjf
    have hcond' : j + batchSize < students.length := by simpa using hcond
    subst hbj
    rw [List.length_take, List.length_drop]
    have hb10 : batchSize = 10 := rfl
    omega
  · intro hlen23
    have hstarts : batchStarts students.length = [0, 10, 20] := by
      rw [hlen23]
      decide
    have hmap : (batchesOf students).map List.length = [10, 10, 3] := by
      rw [batchesOf, hstarts]
      simp [List.length_take, List.length_drop, hlen23, batchSize]
    refine ⟨hmap, ?_⟩
    have hne : students ≠ [] := by
      intro h
      rw [h] at hlen23
      simp at hlen23
    rw [hsleeps hne]
    have hlenb : (batchesOf students).length = 3 := by
      have h3 := congrArg List.length hmap
      simpa using h3
    rw [hlenb]
    rfl

/-- Witness for C3: a concrete 23-student roster produces batch sizes
10, 10, 3 and exactly two inter-batch pauses. -/
theorem claim_C3_witness :
    (batchesOf ((List.range 23).map (fun i => ({ id := i } : Student)))).map
        List.length = [10, 10, 3] ∧
    (fetch_all_stats ⟨fun _ _ => .nil, fun _ _ => .nil, fun _ _ => .nil⟩
        ((List.range 23).map (fun i => ({ id := i } : Student))) {}).batchSleeps =
      [2, 2] := by
  have h := (claim_C3 ⟨fun _ _ => .nil, fun _ _ => .nil, fun _ _ => .nil⟩
    ((List.range 23).map (fun i => ({ id := i } : Student))) {}).2.2.2.2.2
    (by simp)
  exact ⟨h.1, by simpa using h.2⟩

/-- C6: the pipeline is append-only — the periodic cycle and the on-demand
fetch both leave the existing snapshot rows as a prefix of the new store —
and running the on-demand fetch twice for a student with exactly one
registered platform appends two independent rows rather than overwriting
one. -/
theorem claim_C6 (api : Adapters) (students roster : List Student) (sid : Nat)
    (st : TraceState) :
    (∃ tail, (fetch_all_stats api students st).store = st.store ++ tail) ∧
    (∃ tail, ((fetch_student_stats api roster sid st).2).store = st.store ++ tail) ∧
    (∀ s, roster.find? (fun x => x.id == sid) = some s →
      pyTruthyStr s.cf_handle = true → pyTruthyStr s.lc_username = false →
      pyTruthyStr s.cc_username = false →
      ∃ r1 r2,
        ((fetch_student_stats api roster sid
            ((fetch_student_stats api roster sid st).2)).2).store =
          st.store ++ [r1, r2]) := by
  refine ⟨?_, ?_, ?_⟩
  · by_cases he : students.isEmpty
    · exact ⟨[], by simp [fetch_all_stats, he]⟩
    · have hgo : fetch_all_stats api students st =
          batchLoopGo api students (batchStarts students.length) st := by
        simp [fetch_all_stats, he]
      rw [hgo]
      exact (batchLoopGo_props api students (batchStarts students.length) st).1
  · cases hf : roster.find? (fun x => x.id == sid) with
    | none => exact ⟨[], by simp [fss_not_found api roster sid st hf]⟩
    | some s =>
      rw [fss_found api roster sid st s hf]
      exact fsap_store_extends api s st
  · intro s hfind h1 h2 h3
    have get1 : ∀ st0 : TraceState, ∃ row,
        (fetch_student_all_platforms api s st0).store = st0.store ++ [row] := by
      intro st0
      obtain ⟨cf, lc, cc, hst, -, -, -, -, hcf0, hcf1, hlc0, hlc1, hcc0, hcc1⟩ :=
        fsap_decomp api s st0
      rw [hlc0 h2, hcc0 h3] at hst
      rcases hcf1 h1 with ⟨d, t, hrows, -⟩ | ⟨t, hrows, -⟩
      · rw [hrows] at hst
        exact ⟨mkCFSuccess s.id d t, by rw [hst]; simp⟩
      · rw [hrows] at hst
        exact ⟨mkFailedSnapshot s.id "CF"
          (((api.cf (s.cf_handle.getD "")) (maxRetries - 1)).failMsg) t,
          by rw [hst]; simp⟩
    obtain ⟨r1, hr1⟩ := get1 st
    obtain ⟨r2, hr2⟩ := get1 ((fetch_student_stats api roster sid st).2)
    refine ⟨r1, r2, ?_⟩
    rw [fss_found api roster sid ((fetch_student_stats api roster sid st).2) s hfind]
    show (fetch_student_all_platforms api s
      ((fetch_student_stats api roster sid st).2)).store = st.store ++ [r1, r2]
    rw [hr2, fss_found api roster sid st s hfind]
    show (fetch_student_all_platforms api s st).store ++ [r2] = st.store ++ [r1, r2]
    rw [hr1]
    simp

/-- Witness for C6: two successive on-demand fetches for a student with only
a Codeforces handle (whose adapter always returns an absent result) append
two separate failed rows, stamped at clock ticks 0 and 1. -/
theorem claim_C6_witness :
    ((fetch_student_stats ⟨fun _ _ => .nil, fun _ _ => .nil, fun _ _ => .nil⟩
        [{ id := 1, cf_handle := some "h" }] 1
        ((fetch_student_stats ⟨fun _ _ => .nil, fun _ _ => .nil, fun _ _ => .nil⟩
          [{ id := 1, cf_handle := some "h" }] 1 {}).2)).2).store =
      [mkFailedSnapshot 1 "CF" "Failed to fetch data" 0,
       mkFailedSnapshot 1 "CF" "Failed to fetch data" 1] := by
  obtain ⟨r1, r2, h⟩ :=
    (claim_C6 ⟨fun _ _ => .nil, fun _ _ => .nil, fun _ _ => .nil⟩ []
      [{ id := 1, cf_handle := some "h" }] 1 {}).2.2
      { id := 1, cf_handle := some "h" } rfl (by decide) rfl rfl
  rfl

/-- C7: the read path for the "current" stats of a (student, platform) pair
returns `none` exactly when the pair has no snapshots, and otherwise a
snapshot of that pair whose capture timestamp is maximal among the pair's
snapshots — never an arbitrary one. -/
theorem claim_C7 (snaps : List StatsSnapshot) (platform : String) :
    (get_latest_stats snaps platform = none ↔
      snaps.filter (fun r => r.platform == platform) = []) ∧
    (∀ s, get_latest_stats snaps platform = some s →
      s ∈ snaps ∧ s.platform = platform ∧
      ∀ t ∈ snaps, t.platform = platform → t.timestamp ≤ s.timestamp) := by
  constructor
  · unfold get_latest_stats
    constructor
    · intro h
      have hnil := List.head?_eq_none_iff.mp h
      have hperm := List.perm_insertionSort tsDesc
        (snaps.filter (fun r => r.platform == platform))
      rw [hnil] at hperm
      exact (List.Perm.nil_eq hperm).symm
    · intro h
      rw [h]
      rfl
  · intro s hs
    unfold get_latest_stats at hs
    cases hsort : (snaps.filter (fun r => r.platform == platform)).insertionSort tsDesc with
    | nil =>
      rw [hsort] at hs
      simp at hs
    | cons a tail =>
      rw [hsort] at hs
      simp at hs
      subst hs
      have hsorted := List.sorted_insertionSort tsDesc
        (snaps.filter (fun r => r.platform == platform))
      rw [hsort] at hsorted
      have hmax : ∀ b ∈ tail, tsDesc a b := List.rel_of_sorted_cons hsorted
      have hmem : a ∈ snaps.filter (fun r => r.platform == platform) := by
        have hm : a ∈ (snaps.filter
            (fun r => r.platform == platform)).insertionSort tsDesc := by
          rw [hsort]
          exact List.mem_cons_self a tail
        exact (List.mem_insertionSort tsDesc).mp hm
      have hfil := List.mem_filter.mp hmem
      refine ⟨hfil.1, by simpa using hfil.2, ?_⟩
      intro t ht htp
      have htl : t ∈ snaps.filter (fun r => r.platform == platform) :=
        List.mem_filter.mpr ⟨ht, by simp [htp]⟩
      have hts : t ∈ (snaps.filter
          (fun r => r.platform == platform)).insertionSort tsDesc :=
        (List.mem_insertionSort tsDesc).mpr htl
      rw [hsort] at hts
      rcases List.mem_cons.mp hts with rfl | hts'
      · exact Nat.le_refl _
      · exact hmax t hts'

/-- Witness for C7: of two Codeforces snapshots with timestamps 1 and 5,
the read path returns the one stamped 5 and it dominates the other. -/
theorem claim_C7_witness :
    get_latest_stats
        [{ student_id := 1, platform := "CF", timestamp := 1 },
         { student_id := 1, platform := "CF", timestamp := 5 }] "CF" =
      some { student_id := 1, platform := "CF", timestamp := 5 } ∧
    (1 : Nat) ≤ 5 := by
  have h := (claim_C7
    [{ student_id := 1, platform := "CF", timestamp := 1 },
     { student_id := 1, platform := "CF", timestamp := 5 }] "CF").2
    { student_id := 1, platform := "CF", timestamp := 5 } (by decide)
  exact ⟨by decide, h.2.2 { student_id := 1, platform := "CF", timestamp := 1 }
    (by simp) rfl⟩

/-- C8: history retrieval returns exactly the snapshots of the requested
platform whose timestamp lies within the requested day-window (those at or
after `now - days`), sorted in ascending timestamp order. -/
theorem claim_C8 (snaps : List StatsSnapshot) (platform : String) (now days : Nat) :
    (get_stats_history snaps platform now days).Perm
      (snaps.filter (fun r =>
        r.platform == platform && decide (now - days ≤ r.timestamp))) ∧
    List.Sorted tsAsc (get_stats_history snaps platform now days) ∧
    (∀ r, r ∈ get_stats_history snaps platform now days ↔
      (r ∈ snaps ∧ r.platform = platform ∧ now - days ≤ r.timestamp)) := by
  refine ⟨List.perm_insertionSort tsAsc _, List.sorted_insertionSort tsAsc _, ?_⟩
  intro r
  unfold get_stats_history
  rw [(List.perm_insertionSort tsAsc _).mem_iff, List.mem_filter]
  simp [and_assoc]

/-- An `except` clause that lets an exception through neither matched it nor
changed it. -/
theorem catchWith_error_elim {α : Type} (p : PyExc → Bool) (dflt : α) (m : Py α)
    (e : PyExc) (h : catchWith p dflt m = .error e) :
    p e = false ∧ m = .error e := by
  cases m with
  | ok v => simp [catchWith] at h
  | error f =>
    by_cases hp : p f
    · simp [catchWith, hp] at h
    · rw [catchWith, if_neg hp] at h
      have hef : f = e := by
        simpa using h
      subst hef
      exact ⟨by simpa using hp, rfl⟩

/-- A blanket `except Exception` clause makes the wrapped computation total. -/
theorem catchAll_ok {α : Type} (dflt : α) (m : Py α) :
    ∃ v, catchWith (fun _ => true) dflt m = .ok v := by
  cases m with
  | ok v => exact ⟨v, rfl⟩
  | error e => exact ⟨dflt, by simp [catchWith]⟩

/-- C5 counterexample: a transport-level 200 response whose JSON body is the
number 42 makes the Codeforces adapter raise an uncaught `TypeError` at
`data['status']` — `except (KeyError, ValueError, IndexError)` does not
catch it — so the adapter does not always return a payload or `None`. -/
theorem claim_C5_counterexample :
    CodeforcesAPI.get_user_info
        (.ok { status_code := 200, body := some (.num 42) })
        (.ok { status_code := 200, body := some (.num 42) }) =
      .error .typeError := rfl

/-- C5 (amended): the CodeChef adapter never raises (its blanket
`except Exception` catches everything); the Codeforces and LeetCode adapters
normalize transport failures into `None` and can only let a `TypeError` or
`AttributeError` escape — every `requests.RequestException`, `KeyError`,
`ValueError` and `IndexError` is normalized into `None`. -/
theorem claim_C5 :
    (∀ (u : String) (net : CCNetResult), ∃ v, CodeChefAPI.get_user_stats u net = .ok v) ∧
    CodeforcesAPI.get_user_info .failed .failed = .ok none ∧
    LeetCodeAPI.get_user_stats .failed = .ok none ∧
    CodeChefAPI.get_user_stats "x" .failed = .ok none ∧
    (∀ n1 n2 e, CodeforcesAPI.get_user_info n1 n2 = .error e →
      e = .typeError ∨ e = .attributeError) ∧
    (∀ net e, LeetCodeAPI.get_user_stats net = .error e →
      e = .typeError ∨ e = .attributeError) := by
  refine ⟨?_, rfl, rfl, rfl, ?_, ?_⟩
  · intro u net
    exact catchAll_ok none _
  · intro n1 n2 e h
    obtain ⟨hp, h2⟩ := catchWith_error_elim isParseExc none _ e h
    obtain ⟨hr, -⟩ := catchWith_error_elim isReqExc none _ e h2
    cases e <;> simp_all [isParseExc, isReqExc]
  · intro net e h
    obtain ⟨hp, h2⟩ := catchWith_error_elim isParseExc none _ e h
    obtain ⟨hr, -⟩ := catchWith_error_elim isReqExc none _ e h2
    cases e <;> simp_all [isParseExc, isReqExc]

/-- Witness for C5: the escape clause of the amended claim is inhabited — a
numeric JSON body makes the Codeforces adapter raise, and the raised
exception is indeed a `TypeError`. -/
theorem claim_C5_witness :
    CodeforcesAPI.get_user_info
        (.ok { status_code := 200, body := some (.num 7) })
        (.ok { status_code := 200, body := some (.num 7) }) = .error .typeError ∧
    (PyExc.typeError = PyExc.typeError ∨ PyExc.typeError = PyExc.attributeError) :=
  ⟨rfl, claim_C5.2.2.2.2.1
    (.ok { status_code := 200, body := some (.num 7) })
    (.ok { status_code := 200, body := some (.num 7) }) .typeError rfl⟩

end ACE
